import Mathlib

/-! Shallow embedding of the request-authorization engine of the
cob-bucket-site repository (file `src/authorize.ts`), together with
theorems about its behaviour.  External collaborators of the engine
(the minimatch glob library, base64 decoding of the Basic scheme, JSON
parsing of credential settings, the identity-provider fetch and the
in-memory cache) enter as explicit function parameters or as explicit
data, so that every definition here is executable and each theorem
speaks about the engine itself. -/

namespace BucketAuth

/-- JSON values, as far as the engine inspects them.  The engine only ever
asks whether `settings.access`, `settings.include` or `settings.exclude`
is a string, an array, or null/undefined; every other shape (number,
boolean, object) behaves uniformly and is collapsed into `other`. -/
inductive JVal where
  | null
  | str (s : String)
  | arr (xs : List JVal)
  | other
deriving Repr

/-- The parsed `description` settings of a credential.  A field that is
absent (JS `undefined`) is `none`. -/
structure Settings where
  access : Option JVal := none
  «include» : Option JVal := none
  exclude : Option JVal := none
deriving Repr

/-- The identity-provider record for a credential, as consumed by the
engine (fields `iam_id`, `locked`, `disabled`, `description` of the
`Apikey` model). -/
structure Apikey where
  iam_id : String
  locked : Bool
  disabled : Bool
  description : Option String := none
deriving Repr

/-- The `accessKey` query parameter: absent, present with a non-string
value (e.g. repeated parameter), or present as a string. -/
inductive QParam where
  | missing
  | nonString
  | str (s : String)
deriving Repr

/-- The compiled path matcher attached to `authInfo.match`: either the
constant-true function (owner, or no include/exclude patterns at all), or
the closure over the compiled include and exclude pattern lists. -/
inductive Matcher where
  | always
  | rules (includes excludes : List String)
deriving Repr, DecidableEq

/-- The request-scoped `AuthInfo` object built by the middleware. -/
structure AuthInfo where
  access : String := "none"
  type : Option String := none
  accessKey : Option String := none
  apiKey : Option (Option Apikey) := none
  settings : Option Settings := none
  matcher : Option Matcher := none
deriving Repr

/-- The parts of the express request consumed by the middleware. -/
structure Req where
  authInfo : Option AuthInfo := none
  queryAccessKey : QParam := .missing
  authHeader : Option String := none
  path : String := "/"
deriving Repr

/-- Startup configuration: `SERVICE_API_KEY` and `RESOURCE_IAM_ID`. -/
structure Env where
  serviceApiKey : String
  resourceIamId : String
deriving Repr

/-- Outcome of the identity-provider fetch when it does not reject at the
transport level: the `ok` flag of the HTTP response and the parsed JSON
body (`none` for an empty or falsy body). -/
structure FetchResponse where
  ok : Bool
  body : Option Apikey := none
deriving Repr

/-- An HTTP response emitted directly by the engine. -/
structure HttpReply where
  status : Nat
  wwwAuthenticate : Option String := none
  body : String
deriving Repr, DecidableEq

/-- What the middleware does at the end: emit a response itself, or invoke
the next handler. -/
inductive Outcome where
  | respond (r : HttpReply)
  | next
deriving Repr, DecidableEq

/-- The full observable result of one middleware invocation: the computed
`AuthInfo`, the cache write it performed (outer `none` when no write;
`some v` models `memoryCache.set(accessKey, v)` where the inner `none` is
the JS `null` Invalid sentinel), and the outcome. -/
structure EngineResult where
  authInfo : AuthInfo
  cacheWrite : Option (Option Apikey) := none
  outcome : Outcome
deriving Repr

/-- The `unauthorized` helper: 401 with a `WWW-Authenticate: Basic` header. -/
def unauthorized : HttpReply :=
  { status := 401, wwwAuthenticate := some "Basic", body := "Unauthorized" }

/-- The `forbidden` helper: 403. -/
def forbidden : HttpReply := { status := 403, body := "Forbidden" }

/-- JS truthiness of an optional string (`undefined` and `""` are falsy). -/
def truthy : Option String → Bool
  | none => false
  | some s => !(s == "")

/-- Everything after the first `:` of the list, or `none` when there is no
colon (models `indexOf(":") < 0`). -/
def dropThroughColon : List Char → Option (List Char)
  | [] => none
  | c :: cs => if c = ':' then some cs else dropThroughColon cs

/-- Models `p = s.indexOf(":"); if (p >= 0) s = s.substring(p + 1)`. -/
def afterColon (s : String) : String :=
  match dropThroughColon s.data with
  | none => s
  | some cs => String.mk cs

/-- Credential extraction (lines 70-108 of `authorize.ts`): returns the
value stored in `authInfo.type` and the raw extracted credential, `none`
when no credential could be extracted.  `b64` models
`Buffer.from(-, "base64").toString("utf-8")`. -/
def extractAccessKey (b64 : String → String) (q : QParam) (header : Option String) :
    String × Option String :=
  match q with
  | .str s => ("accessKey", some s)
  | _ =>
    match header with
    | none => ("authHeader", none)
    | some h =>
      if h.startsWith "Bearer " then ("authHeader", some (h.drop "Bearer ".length))
      else if h.startsWith "Basic " then
        ("authHeader", some (afterColon (b64 (h.drop "Basic ".length))))
      else ("authHeader", none)

/-- Compilation of one settings field into a pattern list (lines 175-189):
a string gives a singleton, an array keeps its string items, anything else
gives the empty list. -/
def patternList : Option JVal → List String
  | some (.str s) => [s]
  | some (.arr xs) => xs.filterMap fun v => match v with | .str s => some s | _ => none
  | _ => []

/-- The `includeMatches` pattern list of parsed settings. -/
def includeMatches : Option Settings → List String
  | none => []
  | some st => patternList st.«include»

/-- The `excludeMatches` pattern list of parsed settings. -/
def excludeMatches : Option Settings → List String
  | none => []
  | some st => patternList st.exclude

/-- The body of the compiled `match` closure (lines 193-195), verbatim with
the JS operator precedence: `mm pat path` models `pat.match(path, true)`.
Note that the trailing disjunct is inside the callback of the `some` over
the include matchers. -/
def matchPath (mm : String → String → Bool) (includes excludes : List String)
    (path : String) : Bool :=
  includes.isEmpty ||
    includes.any fun m =>
      (mm m path && excludes.isEmpty) || !(excludes.any fun e => mm e path)

/-- Selection of the compiled matcher (line 191): owner, or no include and
no exclude matchers, gives the constant-true matcher. -/
def compileMatcher (owner : Bool) (includes excludes : List String) : Matcher :=
  if owner || (includes.isEmpty && excludes.isEmpty) then .always
  else .rules includes excludes

/-- Evaluation of a compiled matcher on a path. -/
def Matcher.eval (mm : String → String → Bool) : Matcher → String → Bool
  | .always, _ => true
  | .rules includes excludes, path => matchPath mm includes excludes path

/-- The value `owner ? "write" : settings?.access ?? "read"` (line 168):
the nullish coalescing fires on an absent settings object, an absent
`access` field and a JSON null. -/
def requestedAccessValue (owner : Bool) (settings : Option Settings) : JVal :=
  if owner then .str "write"
  else
    match settings with
    | none => .str "read"
    | some st =>
      match st.access with
      | none => .str "read"
      | some .null => .str "read"
      | some v => v

/-- Settings derivation from the record (lines 154-166): the description is
parsed only when truthy; `parse` models `JSON.parse`, returning `none` both
when the parse throws and when it yields a falsy value (either way the
engine continues with no settings). -/
def settingsOf (parse : String → Option Settings) (k : Apikey) : Option Settings :=
  match k.description with
  | none => none
  | some d => if d = "" then none else parse d

/-- The final access comparison against the middleware's `minAccess`
parameter (lines 204-211). -/
def finalizeAccess (minAccess : String) (owner : Bool) (access : String)
    (a : AuthInfo) : AuthInfo :=
  if minAccess == "owner" && !owner then { a with access := "none" }
  else if access == "write" || (access == "read" && minAccess == "read") then
    { a with access := access }
  else a

/-- The labeled `Check:` block (lines 65-212) run when the request carries
no `AuthInfo` yet.  Every `break Check` becomes an early `.ok` with the
`AuthInfo` accumulated so far; a transport-level rejection of the fetch
(`fetched = .error e`) propagates as a thrown error, exactly as in the
source where no try/catch surrounds the `await fetch`. -/
def runCheck (mm : String → String → Bool) (parse : String → Option Settings)
    (b64 : String → String) (env : Env) (minAccess : String) (req : Req)
    (cached : Option (Option Apikey)) (fetched : Except Unit FetchResponse) :
    Except Unit (AuthInfo × Option (Option Apikey)) :=
  let ex := extractAccessKey b64 req.queryAccessKey req.authHeader
  let a : AuthInfo := { access := "none", type := some ex.1 }
  match ex.2 with
  | none => .ok (a, none)
  | some cred =>
    if cred = "" then .ok (a, none)
    else
      let a := { a with accessKey := some cred }
      let lookup : Except Unit (Option Apikey × Option (Option Apikey)) :=
        match cached with
        | some v => .ok (v, none)
        | none =>
          match fetched with
          | .error e => .error e
          | .ok resp =>
            let k : Option Apikey := if resp.ok then resp.body else none
            .ok (k, some k)
      match lookup with
      | .error e => .error e
      | .ok (apiKey, cw) =>
        let a := { a with apiKey := some apiKey }
        let owner : Bool := cred == env.serviceApiKey
        match apiKey with
        | none => .ok (a, cw)
        | some k =>
          if k.locked || k.disabled || (!owner && k.iam_id != env.resourceIamId) then
            .ok (a, cw)
          else
            let settings := settingsOf parse k
            let a := { a with settings := settings }
            match requestedAccessValue owner settings with
            | .str access =>
              if access != "read" && access != "write" then .ok (a, cw)
              else
                let m := compileMatcher owner (includeMatches settings)
                  (excludeMatches settings)
                let a := { a with matcher := some m }
                if !(m.eval mm (req.path.drop 1)) then .ok (a, cw)
                else .ok (finalizeAccess minAccess owner access a, cw)
            | _ => .ok (a, cw)

/-- The shared tail of the middleware (lines 214-228): deny with 403 when a
credential was presented, with 401 otherwise, unless `allowUnauthorized`. -/
def applyAuth (a : AuthInfo) (allowUnauthorized : Bool) : Outcome :=
  if a.access == "none" && !allowUnauthorized then
    if truthy a.accessKey then .respond forbidden else .respond unauthorized
  else .next

/-- One invocation of the middleware produced by
`authorize(minAccess, allowUnauthorized)`: if the request already carries
an `AuthInfo` the `Check:` block is skipped entirely, otherwise it is run
and its result attached. -/
def authorize (mm : String → String → Bool) (parse : String → Option Settings)
    (b64 : String → String) (env : Env) (minAccess : String)
    (allowUnauthorized : Bool) (req : Req) (cached : Option (Option Apikey))
    (fetched : Except Unit FetchResponse) : Except Unit EngineResult :=
  match req.authInfo with
  | some a =>
    .ok { authInfo := a, cacheWrite := none, outcome := applyAuth a allowUnauthorized }
  | none =>
    match runCheck mm parse b64 env minAccess req cached fetched with
    | .error e => .error e
    | .ok (a, cw) =>
      .ok { authInfo := a, cacheWrite := cw, outcome := applyAuth a allowUnauthorized }

/-- The `validpath` guard (lines 20-27), with the external
`new Minimatch(path).hasMagic()` as an explicit parameter. -/
def validpath (hasMagic : String → Bool) : Option String → Bool
  | none => false
  | some path =>
    !(path == "") && !(path == "api") && !(path == "README") &&
      !(path.startsWith "api/") && !(hasMagic path)

/-- Modelled from the spec: segment-level glob matching of the external
minimatch library (spec section 4.5), which is not part of this
repository.  A pattern segment supports the wildcards `*` (any run of
characters) and `?` (any single character); every other character matches
literally. -/
def globSeg : List Char → List Char → Bool
  | [], cs => cs.isEmpty
  | '*' :: ps, cs => cs.tails.any fun t => globSeg ps t
  | '?' :: ps, cs =>
    match cs with
    | [] => false
    | _ :: cs2 => globSeg ps cs2
  | p :: ps, cs =>
    match cs with
    | [] => false
    | c :: cs2 => p == c && globSeg ps cs2

/-- Split a character list on a separator, like JS `String.split`. -/
def splitSeg (sep : Char) : List Char → List (List Char)
  | [] => [[]]
  | c :: cs =>
    match splitSeg sep cs with
    | [] => if c = sep then [[], []] else [[c]]
    | s :: rest => if c = sep then [] :: s :: rest else (c :: s) :: rest

/-- Modelled from the spec: path-level matching of the minimatch library
with the partial flag set, as at both call sites of the engine
(`match(path, true)`).  Pattern and path are split on `/`; segments must
match pairwise; a path exhausted while pattern segments remain is accepted
because partial matching is requested; a pattern exhausted before the path
is a failure. -/
def mmSegs : List (List Char) → List (List Char) → Bool
  | [], ss => ss.isEmpty
  | _ :: _, [] => true
  | p :: ps, s :: ss => globSeg p s && mmSegs ps ss

/-- Modelled from the spec: the minimatch `match(path, true)` call used by
the compiled matcher. -/
def mmatch (pat path : String) : Bool :=
  mmSegs (splitSeg '/' pat.data) (splitSeg '/' path.data)

/-- A `JSON.parse` model that always throws or yields a falsy value. -/
def parseNone : String → Option Settings := fun _ => none

/-- A base64-decoder stand-in; the concrete scenarios below extract the
credential from the query parameter, so it is never applied. -/
def b64id : String → String := fun s => s

/-- A concrete startup configuration. -/
def env0 : Env := { serviceApiKey := "service-key", resourceIamId := "owner-iam" }

/-- A request presenting a credential through the query parameter. -/
def queryReq (c path : String) : Req := { queryAccessKey := .str c, path := path }

/-- The parsed settings of the spec's test vector:
include ["a/*"], exclude ["a/secret/*"]. -/
def vectorSettings : Settings :=
  { «include» := some (.arr [.str "a/*"]), exclude := some (.arr [.str "a/secret/*"]) }

/-- C1: for a non-owner credential whose parsed settings are
include ["a/*"], exclude ["a/secret/*"], the compiled path evaluation
allows "a/file" and denies "a/secret/file" as the claim states, but it
allows "b/file", which the claim requires to be denied: once an exclude
matcher exists and fails to match, the trailing disjunct inside the
compiled match expression is true and the include requirement is
bypassed. -/
theorem C1_path_vector_eval :
    (compileMatcher false (includeMatches (some vectorSettings))
        (excludeMatches (some vectorSettings))).eval mmatch "a/file" = true ∧
    (compileMatcher false (includeMatches (some vectorSettings))
        (excludeMatches (some vectorSettings))).eval mmatch "a/secret/file" = false ∧
    (compileMatcher false (includeMatches (some vectorSettings))
        (excludeMatches (some vectorSettings))).eval mmatch "b/file" = true := by
  decide

/-- An `AuthInfo` as left behind by an earlier middleware in the chain. -/
def storedAuthInfo : AuthInfo :=
  { access := "read", type := some "accessKey", accessKey := some "stored-key" }

/-- A request that already carries a computed `AuthInfo`. -/
def reqWithStored : Req := { authInfo := some storedAuthInfo, path := "/a/file" }

/-- C2 counterexample: with minAccess "owner", allowUnauthorized false and a
request already carrying an AuthInfo with non-owner access "read", the
middleware passes the request on (outcome next) with the stored access
unchanged, instead of forcing access "none" and denying as the claim
states. -/
theorem C2_counterexample :
    authorize mmatch parseNone b64id env0 "owner" false reqWithStored none (.error ()) =
      .ok { authInfo := storedAuthInfo, cacheWrite := none, outcome := .next } := by
  rfl

/-- C2 amended: when a request already carries a computed AuthInfo, the
middleware returns it unchanged and only the enforcement tail runs; the
stored access is tested only against "none", never against the
middleware's own minAccess parameter, of which the result is literally
independent. -/
theorem C2_reuse_skips_minaccess (mm : String → String → Bool)
    (parse : String → Option Settings) (b64 : String → String) (env : Env)
    (minAccess : String) (allow : Bool) (req : Req)
    (cached : Option (Option Apikey)) (fetched : Except Unit FetchResponse)
    (a : AuthInfo) (h : req.authInfo = some a) :
    authorize mm parse b64 env minAccess allow req cached fetched =
      .ok { authInfo := a, cacheWrite := none, outcome := applyAuth a allow } := by
  simp [authorize, h]

theorem C2_witness :
    authorize mmatch parseNone b64id env0 "read" false reqWithStored none (.error ()) =
      .ok { authInfo := storedAuthInfo, cacheWrite := none,
            outcome := applyAuth storedAuthInfo false } :=
  C2_reuse_skips_minaccess mmatch parseNone b64id env0 "read" false reqWithStored
    none (.error ()) storedAuthInfo rfl

/-- C3: for any path and non-owner credential with at least one include
matcher and at least one exclude matcher, if no exclude matcher matches
the path then the compiled match function returns true, regardless of
whether any include matcher matches: the literal short-circuit of the
reference boolean expression. -/
theorem C3_exclude_shortcircuits_include (mm : String → String → Bool)
    (includes excludes : List String) (path : String)
    (hinc : includes ≠ []) (hexc : excludes ≠ [])
    (hnone : ∀ e ∈ excludes, mm e path = false) :
    (compileMatcher false includes excludes).eval mm path = true := by
  have hanyf : excludes.any (fun e => mm e path) = false := by
    rw [List.any_eq_false]
    intro e he
    simp [hnone e he]
  cases includes with
  | nil => exact absurd rfl hinc
  | cons x xs =>
    simp [compileMatcher, Matcher.eval, matchPath, hanyf]

theorem C3_witness :
    (compileMatcher false ["a/*"] ["a/secret/*"]).eval mmatch "b/file" = true :=
  C3_exclude_shortcircuits_include mmatch ["a/*"] ["a/secret/*"] "b/file"
    (by decide) (by decide) (by decide)

/-- Extraction from a string-typed accessKey query parameter. -/
theorem extract_query (b64 : String → String) (s : String) (hdr : Option String) :
    extractAccessKey b64 (.str s) hdr = ("accessKey", some s) := rfl

/-- A locked identity-provider record. -/
def lockedRecord : Apikey := { iam_id := "owner-iam", locked := true, disabled := false }

/-- C4 counterexample: the service credential presented together with a
locked verification record is denied: the resulting access is "none", no
matcher is attached and the outcome is the 403 response, refuting
"requested access is always write and the path matcher accepts every path
regardless of the verification record". -/
theorem C4_counterexample :
    (authorize mmatch parseNone b64id env0 "read" false
        (queryReq "service-key" "/x") (some (some lockedRecord)) (.error ())).map
      (fun r => (r.authInfo.access, r.authInfo.matcher, r.outcome)) =
      .ok ("none", none, .respond forbidden) ∧
    (("none" : String), (none : Option Matcher)) ≠ ("write", some .always) :=
  ⟨rfl, by decide⟩

/-- C4 amended: for every request presenting the service credential whose
verification record is present and neither locked nor disabled, the engine
treats it as owner regardless of the credential's settings and of the
record's iam id: the requested access is "write", the always-true matcher
is attached and the request is passed on, for every minAccess value. -/
theorem C4_owner_write_always (mm : String → String → Bool)
    (parse : String → Option Settings) (b64 : String → String) (env : Env)
    (minAccess : String) (allow : Bool) (path : String) (k : Apikey)
    (hsvc : env.serviceApiKey ≠ "") (hl : k.locked = false) (hd : k.disabled = false) :
    authorize mm parse b64 env minAccess allow (queryReq env.serviceApiKey path)
        (some (some k)) (.error ()) =
      .ok { authInfo := { access := "write", type := some "accessKey",
                          accessKey := some env.serviceApiKey,
                          apiKey := some (some k),
                          settings := settingsOf parse k,
                          matcher := some .always },
            cacheWrite := none, outcome := .next } := by
  have hb : (env.serviceApiKey == env.serviceApiKey) = true := beq_self_eq_true _
  have hacc : requestedAccessValue true (settingsOf parse k) = .str "write" := rfl
  have hm : compileMatcher true (includeMatches (settingsOf parse k))
      (excludeMatches (settingsOf parse k)) = .always := rfl
  have heval : Matcher.eval mm .always (path.drop 1) = true := rfl
  have hred : runCheck mm parse b64 env minAccess (queryReq env.serviceApiKey path)
      (some (some k)) (.error ()) =
      .ok (finalizeAccess minAccess true "write"
        { access := "none", type := some "accessKey",
          accessKey := some env.serviceApiKey, apiKey := some (some k),
          settings := settingsOf parse k, matcher := some .always }, none) := by
    unfold runCheck
    simp only [queryReq, extract_query]
    rw [if_neg hsvc]
    simp only [hb, hl, hd, hacc, hm, heval]
    simp
  have hfin : finalizeAccess minAccess true "write"
      { access := "none", type := some "accessKey",
        accessKey := some env.serviceApiKey, apiKey := some (some k),
        settings := settingsOf parse k, matcher := some .always } =
      { access := "write", type := some "accessKey",
        accessKey := some env.serviceApiKey, apiKey := some (some k),
        settings := settingsOf parse k, matcher := some .always } := by
    simp [finalizeAccess]
  rw [hfin] at hred
  simp only [queryReq] at hred
  simp [authorize, queryReq, hred, applyAuth]

theorem C4_witness :
    authorize mmatch parseNone b64id env0 "owner" false
        (queryReq env0.serviceApiKey "/any/path")
        (some (some { iam_id := "other-iam", locked := false, disabled := false,
                      description := some "oops" })) (.error ()) =
      .ok { authInfo := { access := "write", type := some "accessKey",
                          accessKey := some env0.serviceApiKey,
                          apiKey := some (some { iam_id := "other-iam", locked := false,
                                                 disabled := false,
                                                 description := some "oops" }),
                          settings := settingsOf parseNone
                            { iam_id := "other-iam", locked := false, disabled := false,
                              description := some "oops" },
                          matcher := some .always },
            cacheWrite := none, outcome := .next } :=
  C4_owner_write_always mmatch parseNone b64id env0 "owner" false "/any/path"
    { iam_id := "other-iam", locked := false, disabled := false,
      description := some "oops" } (by decide) rfl rfl

/-- Shared reduction lemma: under a query-supplied non-owner credential
that passes the record checks, whose coalesced access value is a string
and whose compiled matcher accepts the request path, the Check block
reaches the final minAccess comparison. -/
theorem runCheck_verified_nonowner (mm : String → String → Bool)
    (parse : String → Option Settings) (b64 : String → String) (env : Env)
    (minAccess : String) (c path acc : String) (k : Apikey)
    (hc : c ≠ "") (hsvc : c ≠ env.serviceApiKey)
    (hl : k.locked = false) (hd : k.disabled = false)
    (hid : k.iam_id = env.resourceIamId)
    (hacc : requestedAccessValue false (settingsOf parse k) = .str acc)
    (hvalid : (acc != "read" && acc != "write") = false)
    (hmatch : (compileMatcher false (includeMatches (settingsOf parse k))
        (excludeMatches (settingsOf parse k))).eval mm (path.drop 1) = true) :
    runCheck mm parse b64 env minAccess (queryReq c path) (some (some k)) (.error ()) =
      .ok (finalizeAccess minAccess false acc
        { access := "none", type := some "accessKey", accessKey := some c,
          apiKey := some (some k), settings := settingsOf parse k,
          matcher := some (compileMatcher false (includeMatches (settingsOf parse k))
            (excludeMatches (settingsOf parse k))) }, none) := by
  have hcb : (c == env.serviceApiKey) = false := beq_eq_false_iff_ne.mpr hsvc
  have hidb : (k.iam_id != env.resourceIamId) = false := by simp [hid]
  unfold runCheck
  simp only [queryReq, extract_query]
  rw [if_neg hc]
  simp only [hcb, hl, hd, hidb, hacc, hvalid, hmatch]
  simp

/-- C5: for a successfully verified, path-matched non-owner credential:
with minAccess "read" the final access equals the requested access (read
or write) and the request passes; with minAccess "write" the final access
is "write" when the requested access is "write", and remains "none" with
a 403 denial (allowUnauthorized false) when the requested access is
"read". -/
theorem C5_minaccess_comparison (mm : String → String → Bool)
    (parse : String → Option Settings) (b64 : String → String) (env : Env)
    (minAccess : String) (allow : Bool) (c path acc : String) (k : Apikey)
    (hc : c ≠ "") (hsvc : c ≠ env.serviceApiKey)
    (hl : k.locked = false) (hd : k.disabled = false)
    (hid : k.iam_id = env.resourceIamId)
    (hacc : requestedAccessValue false (settingsOf parse k) = .str acc)
    (hval : acc = "read" ∨ acc = "write")
    (hmatch : (compileMatcher false (includeMatches (settingsOf parse k))
        (excludeMatches (settingsOf parse k))).eval mm (path.drop 1) = true) :
    (minAccess = "read" →
      authorize mm parse b64 env minAccess allow (queryReq c path)
          (some (some k)) (.error ()) =
        .ok { authInfo := { access := acc, type := some "accessKey",
                            accessKey := some c, apiKey := some (some k),
                            settings := settingsOf parse k,
                            matcher := some (compileMatcher false
                              (includeMatches (settingsOf parse k))
                              (excludeMatches (settingsOf parse k))) },
              cacheWrite := none, outcome := .next }) ∧
    (minAccess = "write" → acc = "write" →
      authorize mm parse b64 env minAccess allow (queryReq c path)
          (some (some k)) (.error ()) =
        .ok { authInfo := { access := "write", type := some "accessKey",
                            accessKey := some c, apiKey := some (some k),
                            settings := settingsOf parse k,
                            matcher := some (compileMatcher false
                              (includeMatches (settingsOf parse k))
                              (excludeMatches (settingsOf parse k))) },
              cacheWrite := none, outcome := .next }) ∧
    (minAccess = "write" → acc = "read" → allow = false →
      authorize mm parse b64 env minAccess allow (queryReq c path)
          (some (some k)) (.error ()) =
        .ok { authInfo := { access := "none", type := some "accessKey",
                            accessKey := some c, apiKey := some (some k),
                            settings := settingsOf parse k,
                            matcher := some (compileMatcher false
                              (includeMatches (settingsOf parse k))
                              (excludeMatches (settingsOf parse k))) },
              cacheWrite := none, outcome := .respond forbidden }) := by
  have hvalid : (acc != "read" && acc != "write") = false := by
    rcases hval with h | h <;> simp [h]
  have hred := runCheck_verified_nonowner mm parse b64 env minAccess c path acc k
    hc hsvc hl hd hid hacc hvalid hmatch
  have hcb : (c == "") = false := beq_eq_false_iff_ne.mpr hc
  simp only [queryReq] at hred
  refine ⟨?_, ?_, ?_⟩
  · intro hm
    subst hm
    rcases hval with h | h <;> subst h <;>
      simp [authorize, queryReq, hred, finalizeAccess, applyAuth]
  · intro hm ha
    subst hm
    subst ha
    simp [authorize, queryReq, hred, finalizeAccess, applyAuth]
  · intro hm ha hal
    subst hm
    subst ha
    subst hal
    simp [authorize, queryReq, hred, finalizeAccess, applyAuth, truthy, hcb]

/-- A `JSON.parse` model yielding settings with access "read" and no
include or exclude patterns. -/
def parseRead : String → Option Settings := fun _ => some { access := some (.str "read") }

/-- A valid, unlocked record owned by the configured resource owner. -/
def validRecord : Apikey :=
  { iam_id := "owner-iam", locked := false, disabled := false, description := some "j" }

theorem C5_witness :
    ("write" = "read" →
      authorize mmatch parseRead b64id env0 "write" false (queryReq "user-key" "/x")
          (some (some validRecord)) (.error ()) =
        .ok { authInfo := { access := "read", type := some "accessKey",
                            accessKey := some "user-key", apiKey := some (some validRecord),
                            settings := settingsOf parseRead validRecord,
                            matcher := some (compileMatcher false
                              (includeMatches (settingsOf parseRead validRecord))
                              (excludeMatches (settingsOf parseRead validRecord))) },
              cacheWrite := none, outcome := .next }) ∧
    ("write" = "write" → "read" = "write" →
      authorize mmatch parseRead b64id env0 "write" false (queryReq "user-key" "/x")
          (some (some validRecord)) (.error ()) =
        .ok { authInfo := { access := "write", type := some "accessKey",
                            accessKey := some "user-key", apiKey := some (some validRecord),
                            settings := settingsOf parseRead validRecord,
                            matcher := some (compileMatcher false
                              (includeMatches (settingsOf parseRead validRecord))
                              (excludeMatches (settingsOf parseRead validRecord))) },
              cacheWrite := none, outcome := .next }) ∧
    ("write" = "write" → "read" = "read" → (false : Bool) = false →
      authorize mmatch parseRead b64id env0 "write" false (queryReq "user-key" "/x")
          (some (some validRecord)) (.error ()) =
        .ok { authInfo := { access := "none", type := some "accessKey",
                            accessKey := some "user-key", apiKey := some (some validRecord),
                            settings := settingsOf parseRead validRecord,
                            matcher := some (compileMatcher false
                              (includeMatches (settingsOf parseRead validRecord))
                              (excludeMatches (settingsOf parseRead validRecord))) },
              cacheWrite := none, outcome := .respond forbidden }) :=
  C5_minaccess_comparison mmatch parseRead b64id env0 "write" false "user-key" "/x"
    "read" validRecord (by decide) (by decide) rfl rfl rfl rfl (Or.inl rfl) rfl

/-- C6: a non-empty credential whose verification result is the Invalid
sentinel, or whose record is locked or disabled, or whose provider owner
id differs from the configured resource owner id while the credential is
not the service credential, ends with access "none"; with
allowUnauthorized false the engine responds 403 Forbidden and the next
handler is not invoked. -/
theorem C6_rejected_credential_403 (mm : String → String → Bool)
    (parse : String → Option Settings) (b64 : String → String) (env : Env)
    (minAccess : String) (allow : Bool) (c path : String) (v : Option Apikey)
    (hc : c ≠ "")
    (hrej : v = none ∨ ∃ k, v = some k ∧ (k.locked = true ∨ k.disabled = true ∨
      (c ≠ env.serviceApiKey ∧ k.iam_id ≠ env.resourceIamId))) :
    authorize mm parse b64 env minAccess allow (queryReq c path) (some v) (.error ()) =
      .ok { authInfo := { access := "none", type := some "accessKey",
                          accessKey := some c, apiKey := some v },
            cacheWrite := none,
            outcome := if allow then .next else .respond forbidden } ∧
    forbidden.status = 403 ∧ Outcome.respond forbidden ≠ Outcome.next := by
  have hcb : (c == "") = false := beq_eq_false_iff_ne.mpr hc
  refine ⟨?_, rfl, by decide⟩
  have hred : runCheck mm parse b64 env minAccess (queryReq c path)
      (some v) (.error ()) =
      .ok ({ access := "none", type := some "accessKey", accessKey := some c,
             apiKey := some v }, none) := by
    unfold runCheck
    simp only [queryReq, extract_query]
    rw [if_neg hc]
    rcases hrej with h | ⟨k, hk, hflag⟩
    · subst h
      simp
    · subst hk
      have hcond : (k.locked || k.disabled ||
          (!(c == env.serviceApiKey) && k.iam_id != env.resourceIamId)) = true := by
        rcases hflag with h | h | ⟨h1, h2⟩
        · simp [h]
        · simp [h]
        · simp [beq_eq_false_iff_ne.mpr h1, bne_iff_ne.mpr h2]
      simp only [hcond]
      simp
  simp only [queryReq] at hred
  cases allow <;>
    simp [authorize, queryReq, hred, applyAuth, truthy, hcb]

theorem C6_witness :
    (authorize mmatch parseNone b64id env0 "read" false (queryReq "bad-key" "/x")
        (some none) (.error ()) =
      .ok { authInfo := { access := "none", type := some "accessKey",
                          accessKey := some "bad-key", apiKey := some none },
            cacheWrite := none,
            outcome := if false then .next else .respond forbidden } ∧
    forbidden.status = 403 ∧ Outcome.respond forbidden ≠ Outcome.next) :=
  C6_rejected_credential_403 mmatch parseNone b64id env0 "read" false "bad-key" "/x"
    none (by decide) (Or.inl rfl)

/-- C7: a request with no extractable credential (no string accessKey
query parameter and no usable Authorization header, or an extraction that
yields the empty credential) gets an AuthInfo with access "none" and no
accessKey field; with allowUnauthorized false the engine responds 401
with a WWW-Authenticate Basic header, and the next handler is not
invoked. -/
theorem C7_no_credential_401 (mm : String → String → Bool)
    (parse : String → Option Settings) (b64 : String → String) (env : Env)
    (minAccess : String) (allow : Bool) (req : Req)
    (cached : Option (Option Apikey)) (fetched : Except Unit FetchResponse)
    (h0 : req.authInfo = none)
    (hcred : (extractAccessKey b64 req.queryAccessKey req.authHeader).2 = none ∨
             (extractAccessKey b64 req.queryAccessKey req.authHeader).2 = some "") :
    authorize mm parse b64 env minAccess allow req cached fetched =
      .ok { authInfo := { access := "none",
                          type := some (extractAccessKey b64 req.queryAccessKey
                            req.authHeader).1,
                          accessKey := none, apiKey := none, settings := none,
                          matcher := none },
            cacheWrite := none,
            outcome := if allow then .next else .respond unauthorized } ∧
    unauthorized = { status := 401, wwwAuthenticate := some "Basic",
                     body := "Unauthorized" } := by
  refine ⟨?_, rfl⟩
  rcases hcred with h | h <;>
    cases allow <;>
      simp [authorize, h0, runCheck, h, applyAuth, truthy, unauthorized]

theorem C7_witness :
    (authorize mmatch parseNone b64id env0 "read" false ({} : Req) none (.error ()) =
      .ok { authInfo := { access := "none",
                          type := some (extractAccessKey b64id ({} : Req).queryAccessKey
                            ({} : Req).authHeader).1,
                          accessKey := none, apiKey := none, settings := none,
                          matcher := none },
            cacheWrite := none,
            outcome := if false then .next else .respond unauthorized } ∧
    unauthorized = { status := 401, wwwAuthenticate := some "Basic",
                     body := "Unauthorized" }) :=
  C7_no_credential_401 mmatch parseNone b64id env0 "read" false ({} : Req) none
    (.error ()) rfl (Or.inl rfl)

/-- C8: a verified non-owner credential whose description fails strict
JSON parsing is treated as having no settings: the requested access
defaults to "read", the always-true matcher is attached (no
include/exclude restriction), and the engine proceeds to the minAccess
comparison instead of rejecting at the parsing step. -/
theorem C8_bad_json_fail_open (mm : String → String → Bool)
    (parse : String → Option Settings) (b64 : String → String) (env : Env)
    (minAccess : String) (allow : Bool) (c path d : String) (k : Apikey)
    (hc : c ≠ "") (hsvc : c ≠ env.serviceApiKey)
    (hl : k.locked = false) (hd : k.disabled = false)
    (hid : k.iam_id = env.resourceIamId)
    (hdesc : k.description = some d) (hdne : d ≠ "") (hparse : parse d = none) :
    authorize mm parse b64 env minAccess allow (queryReq c path)
        (some (some k)) (.error ()) =
      .ok { authInfo := { access := if minAccess = "read" then "read" else "none",
                          type := some "accessKey", accessKey := some c,
                          apiKey := some (some k), settings := none,
                          matcher := some .always },
            cacheWrite := none,
            outcome := if minAccess = "read" then .next
                       else if allow then .next else .respond forbidden } := by
  have hs : settingsOf parse k = none := by
    simp [settingsOf, hdesc, hdne, hparse]
  have hred := runCheck_verified_nonowner mm parse b64 env minAccess c path "read" k
    hc hsvc hl hd hid (by rw [hs]; rfl) rfl (by rw [hs]; rfl)
  rw [hs] at hred
  simp only [queryReq] at hred
  have hcb : (c == "") = false := beq_eq_false_iff_ne.mpr hc
  by_cases hmr : minAccess = "read"
  · subst hmr
    simp [authorize, queryReq, hred, includeMatches, excludeMatches,
      compileMatcher, finalizeAccess, applyAuth]
  · have hmrb : (minAccess == "read") = false := beq_eq_false_iff_ne.mpr hmr
    cases allow <;>
      simp [authorize, queryReq, hred, includeMatches, excludeMatches,
        compileMatcher, finalizeAccess, applyAuth, truthy, hcb, hmrb, hmr]

/-- A record whose description is not valid JSON. -/
def badJsonRecord : Apikey :=
  { iam_id := "owner-iam", locked := false, disabled := false,
    description := some "not json" }

theorem C8_witness :
    authorize mmatch parseNone b64id env0 "read" false (queryReq "user-key" "/x")
        (some (some badJsonRecord)) (.error ()) =
      .ok { authInfo := { access := if "read" = "read" then "read" else "none",
                          type := some "accessKey", accessKey := some "user-key",
                          apiKey := some (some badJsonRecord), settings := none,
                          matcher := some .always },
            cacheWrite := none,
            outcome := if "read" = "read" then .next
                       else if false then .next else .respond forbidden } :=
  C8_bad_json_fail_open mmatch parseNone b64id env0 "read" false "user-key" "/x"
    "not json" badJsonRecord (by decide) (by decide) rfl rfl rfl rfl (by decide) rfl

/-- C9 counterexample: on a cache miss, a transport-level fetch failure is
not folded into the Invalid sentinel and nothing is written to the cache:
the middleware propagates the rejection as a thrown error and produces no
result at all, refuting the claim that transport failures are cached like
non-success responses. -/
theorem C9_counterexample :
    authorize mmatch parseNone b64id env0 "read" false (queryReq "some-key" "/x")
      none (.error ()) = .error () := by
  rfl

/-- C9 amended: on a cache miss, only a settled identity-provider response
is folded: a non-success response yields the Invalid sentinel, which is
written to the cache; a transport-level failure propagates as a thrown
error and performs no cache write at all. -/
theorem C9_fetch_failure_vs_invalid (mm : String → String → Bool)
    (parse : String → Option Settings) (b64 : String → String) (env : Env)
    (minAccess : String) (allow : Bool) (req : Req) (s : String)
    (resp : FetchResponse) (h0 : req.authInfo = none)
    (hex : (extractAccessKey b64 req.queryAccessKey req.authHeader).2 = some s)
    (hs : s ≠ "") (hok : resp.ok = false) :
    (authorize mm parse b64 env minAccess allow req none (.ok resp) =
      .ok { authInfo := { access := "none",
                          type := some (extractAccessKey b64 req.queryAccessKey
                            req.authHeader).1,
                          accessKey := some s, apiKey := some none,
                          settings := none, matcher := none },
            cacheWrite := some none,
            outcome := if allow then .next else .respond forbidden }) ∧
    authorize mm parse b64 env minAccess allow req none (.error ()) = .error () := by
  have hcb : (s == "") = false := beq_eq_false_iff_ne.mpr hs
  constructor
  · cases allow <;>
      simp [authorize, h0, runCheck, hex, hs, hok, applyAuth, truthy, hcb]
  · simp [authorize, h0, runCheck, hex, hs]

theorem C9_witness :
    (authorize mmatch parseNone b64id env0 "read" false (queryReq "some-key" "/x")
        none (.ok { ok := false, body := none }) =
      .ok { authInfo := { access := "none",
                          type := some (extractAccessKey b64id
                            (queryReq "some-key" "/x").queryAccessKey
                            (queryReq "some-key" "/x").authHeader).1,
                          accessKey := some "some-key", apiKey := some none,
                          settings := none, matcher := none },
            cacheWrite := some none,
            outcome := if false then .next else .respond forbidden }) ∧
    authorize mmatch parseNone b64id env0 "read" false (queryReq "some-key" "/x")
      none (.error ()) = .error () :=
  C9_fetch_failure_vs_invalid mmatch parseNone b64id env0 "read" false
    (queryReq "some-key" "/x") "some-key" { ok := false, body := none } rfl rfl
    (by decide) rfl

/-- C10: validpath returns true exactly when the argument is a non-empty
string different from "api" and "README" that does not start with "api/"
and has no minimatch magic; in particular it is false for a missing value
(JS null or undefined) and for the empty string. -/
theorem C10_validpath_iff (hasMagic : String → Bool) (p : Option String) :
    validpath hasMagic p = true ↔
      ∃ s, p = some s ∧ s ≠ "" ∧ s ≠ "api" ∧ s ≠ "README" ∧
        s.startsWith "api/" = false ∧ hasMagic s = false := by
  cases p with
  | none => simp [validpath]
  | some s => simp [validpath, and_assoc]

end BucketAuth
